import Mathlib

/-!
Verification development for the medB e-commerce backend
(`src/server-mongodb.js` and its mongoose models).

Monetary amounts (JavaScript numbers) are modelled as `ℚ`, usage counters
as `ℕ`, and timestamps as `ℤ` (an abstract "now" is passed explicitly).
Collections are modelled as lists of documents; a mongoose `findOne` is
`List.find?` and a `findOneAndUpdate` / in-place `save` of the found
document is `updateFirst` (update of the first matching element).
-/

deriving instance DecidableEq for Except

namespace MedB

/-! ### Coupon data model

Modelled from the spec: `src/models/Coupon.js` is imported by
`src/server-mongodb.js` but is not among the sources; the coupon fields
follow the spec's data model (§3): `code`, `discountType` ∈
{percentage, fixed}, `discountValue`, `minOrderAmount` (default 0),
optional `maxUsage`, `usedCount`, `isActive`, optional `expiresAt`. -/

inductive DiscountType where
  | percentage
  | fixed
deriving DecidableEq, Repr

structure Coupon where
  code : String
  discountType : DiscountType
  discountValue : ℚ
  minOrderAmount : ℚ
  maxUsage : Option ℕ
  usedCount : ℕ
  isActive : Bool
  expiresAt : Option ℤ
deriving DecidableEq, Repr

/-- The four distinguishable rejection reasons of coupon validation
(spec §4.1: inactive, expired, usage limit reached, below minimum order). -/
inductive CouponReject where
  | inactive
  | expired
  | usageLimitReached
  | belowMinimum
deriving DecidableEq, Repr

/-- Executable `Math.min` on rationals (kernel-reducible, unlike `min`). -/
def qmin (a b : ℚ) : ℚ := if a ≤ b then a else b

/-- Executable `Math.max` on rationals. -/
def qmax (a b : ℚ) : ℚ := if a ≤ b then b else a

/-- `expiresAt` is set and in the past relative to `now`. -/
def couponExpired (c : Coupon) (now : ℤ) : Bool :=
  match c.expiresAt with
  | some t => decide (t < now)
  | none => false

/-- `maxUsage` is set and `usedCount` has reached it. -/
def usageLimitHit (c : Coupon) : Bool :=
  match c.maxUsage with
  | some m => decide (m ≤ c.usedCount)
  | none => false

/-- Modelled from the spec: `Coupon.calculateDiscount` lives in the missing
`src/models/Coupon.js`; per spec §4.1 the preconditions are checked in
order (active, not expired, usage below cap, subtotal at least the
minimum), first failure wins, and the discount is
`subtotal * discountValue / 100` (percentage) or `discountValue` (fixed),
clamped to at most the subtotal. -/
def calculateDiscount (c : Coupon) (now : ℤ) (subtotal : ℚ) :
    Except CouponReject ℚ :=
  if c.isActive = false then .error .inactive
  else if couponExpired c now then .error .expired
  else if usageLimitHit c then .error .usageLimitReached
  else if subtotal < c.minOrderAmount then .error .belowMinimum
  else
    let raw : ℚ :=
      match c.discountType with
      | .percentage => subtotal * c.discountValue / 100
      | .fixed => c.discountValue
    .ok (qmin raw subtotal)

/-- Concrete fixture: an active 10% coupon. -/
def pctCoupon : Coupon :=
  { code := "SAVE10", discountType := .percentage, discountValue := 10,
    minOrderAmount := 0, maxUsage := none, usedCount := 0,
    isActive := true, expiresAt := none }

/-- Concrete fixture: an active coupon whose usage cap is exhausted. -/
def usedUpCoupon : Coupon :=
  { code := "GONE", discountType := .fixed, discountValue := 5,
    minOrderAmount := 0, maxUsage := some 3, usedCount := 3,
    isActive := true, expiresAt := none }

/-! ### Collections, documents and the request handlers

The remaining documents (products, categories, cart lines, wishlist
entries, orders) and the endpoint handlers of `src/server-mongodb.js`.
Plumbing that bears on no claim (auto-increment ids, base64 image
optimization, timestamps, CORS) is elided. -/

/-- Update the first element satisfying `p`: a mongoose `save` of the
document returned by `findOne`, or a `findOneAndUpdate`. -/
def updateFirst {α : Type} (p : α → Bool) (f : α → α) : List α → List α
  | [] => []
  | x :: xs => if p x then f x :: xs else x :: updateFirst p f xs

/-- JavaScript `v || d` for an optional numeric field: `undefined` and `0`
are falsy. -/
def jsNum (v : Option ℚ) (d : ℚ) : ℚ :=
  match v with
  | none => d
  | some x => if x = 0 then d else x

/-- JavaScript `v || d` for a numeric field that is present. -/
def jsNumD (v d : ℚ) : ℚ := if v = 0 then d else v

/-- JavaScript `s || d` for a string field (an absent field is modelled as
`""`, which is falsy anyway). -/
def jsStr (s d : String) : String := if s = "" then d else s

/-- JavaScript `s || d` for an optional string field. -/
def jsStrOpt (v : Option String) (d : String) : String :=
  match v with
  | none => d
  | some s => if s = "" then d else s

/-- Product document, reduced to the claim-relevant fields of
`productSchema` (`src/models/Product.js`). -/
structure Product where
  id : ℕ
  name : String
  description : String
  price : ℚ
  stock : ℕ
  categoryId : ℕ
  mainImage : String
  isActive : Bool
deriving DecidableEq, Repr

/-- Category document, reduced from `src/models/Category.js`; its `id`
field carries a unique index. -/
structure Category where
  id : ℕ
  name : String
  description : String
  image : String
  isActive : Bool
deriving DecidableEq, Repr

/-- Modelled from the spec: `src/models/Cart.js` is missing from the
sources; per spec §4.3 the selected options are an option-name→value
mapping compared by structural deep equality, modelled as an association
list (keys in the client's order) with structural equality. -/
abbrev SelectedOptions := List (String × String)

/-- Cart-line attachments (free text plus images). -/
structure Attachments where
  text : String
  images : List String
deriving DecidableEq, Repr

/-- JS truthiness of `attachments && (attachments.text ||
attachments.images?.length > 0)`. -/
def Attachments.hasContent (a : Attachments) : Bool :=
  decide (a.text ≠ "") || !a.images.isEmpty

/-- Cart line document (reduced; the spec-relevant snapshot fields). -/
structure CartItem where
  userId : String
  productId : ℕ
  productName : String
  price : ℚ
  quantity : ℚ
  image : String
  selectedOptions : SelectedOptions
  attachments : Attachments
deriving DecidableEq, Repr

/-- Wishlist entry document (reduced). -/
structure WishlistItem where
  userId : String
  productId : ℕ
  productName : String
  price : ℚ
  image : String
deriving DecidableEq, Repr

/-- Order line item (reduced). -/
structure OrderItem where
  productId : ℕ
  productName : String
  price : ℚ
  quantity : ℚ
  totalPrice : ℚ
deriving DecidableEq, Repr

/-- Order document (reduced to the fields the claims speak about). -/
structure Order where
  customerName : String
  items : List OrderItem
  subtotal : ℚ
  deliveryFee : ℚ
  couponCode : String
  couponDiscount : ℚ
  total : ℚ
  userId : String
deriving DecidableEq, Repr

/-- The whole database: one list per collection. -/
structure Store where
  categories : List Category
  products : List Product
  coupons : List Coupon
  carts : List CartItem
  wishlist : List WishlistItem
  orders : List Order
deriving DecidableEq, Repr

/-- The fields a handler passes to `new Order(...)` (reduced). -/
structure OrderDraft where
  customerName : String
  items : List OrderItem
  subtotal : ℚ
  deliveryFee : ℚ
  couponCode : String
  couponDiscount : ℚ
  total : ℚ
  userId : String
deriving DecidableEq, Repr

/-- Modelled from the spec: `src/models/Order.js` is missing from the
sources; per the spec's data model the order's derived totals are
computed when the document is saved — `subtotal` is the sum of the line
`totalPrice` values and `total` is `subtotal + deliveryFee -
couponDiscount` clamped to ≥ 0. A subtotal/total passed by a handler is
superseded by this derivation. -/
def orderSave (d : OrderDraft) : Order :=
  let sub : ℚ := (d.items.map OrderItem.totalPrice).sum
  { customerName := d.customerName, items := d.items,
    subtotal := sub, deliveryFee := d.deliveryFee,
    couponCode := d.couponCode, couponDiscount := d.couponDiscount,
    total := qmax 0 (sub + d.deliveryFee - d.couponDiscount),
    userId := d.userId }

/-- JavaScript `.toUpperCase()`, modelled as per-character uppercasing
(kernel-reducible, unlike `String.toUpper`). -/
def strUpper (s : String) : String := ⟨s.data.map Char.toUpper⟩

/-- The `Coupon.findOne({ code: code.toUpperCase(), isActive: true })`
query shared by POST `/api/orders` and POST `/api/coupons/validate`. -/
def couponQuery (code : String) (c : Coupon) : Bool :=
  decide (c.code = strUpper code ∧ c.isActive = true)

def findCoupon (coupons : List Coupon) (code : String) : Option Coupon :=
  coupons.find? (couponQuery code)

/-- The coupon step of POST `/api/orders`
(`src/server-mongodb.js:790-804`): with a truthy coupon code, look the
coupon up; on successful validation against `Σ price·quantity` take the
discount and increment-and-save the coupon's `usedCount`; on a missing or
failing coupon fall through silently with discount 0. -/
def orderCouponStep (coupons : List Coupon) (now : ℤ) (code : String)
    (sub : ℚ) : ℚ × List Coupon :=
  if code = "" then (0, coupons)
  else
    match findCoupon coupons code with
    | none => (0, coupons)
    | some coupon =>
      match calculateDiscount coupon now sub with
      | .error _ => (0, coupons)
      | .ok d =>
        (d, updateFirst (couponQuery code)
          (fun c => { c with usedCount := c.usedCount + 1 }) coupons)

/-- Request body of POST `/api/orders` (reduced; an absent coupon code is
`""`, which is also how JS truthiness treats it). -/
structure CreateOrderReq where
  customerName : String
  items : List OrderItem
  couponCode : String
  deliveryFee : ℚ
  userId : String
deriving DecidableEq, Repr

/-- The subtotal POST `/api/orders` computes for coupon validation:
`items.reduce((sum, item) => sum + item.price * item.quantity, 0)`. -/
def serverSubtotal (items : List OrderItem) : ℚ :=
  (items.map (fun i => i.price * i.quantity)).sum

/-- POST `/api/orders` (`src/server-mongodb.js:773-831`): run the coupon
step, save the order built from the request, clear the user's cart, and
answer 201 with the created order (there is no rejection path for a bad
coupon). -/
def createOrder (st : Store) (now : ℤ) (req : CreateOrderReq) :
    Store × Order :=
  let sub := serverSubtotal req.items
  let step := orderCouponStep st.coupons now req.couponCode sub
  let order := orderSave
    { customerName := req.customerName, items := req.items,
      subtotal := 0, deliveryFee := req.deliveryFee,
      couponCode := req.couponCode, couponDiscount := step.1,
      total := 0, userId := req.userId }
  let remaining := st.carts.filter
    (fun i => decide (i.userId ≠ jsStr req.userId "guest"))
  ({ st with
    coupons := step.2, orders := st.orders ++ [order],
    carts := remaining }, order)

/-- Response of POST `/api/coupons/validate`: 200 with the coupon and
amount, 400 carrying the rejection reason, or 404 for an unknown (or
inactive) code. -/
inductive ValidateResp where
  | valid (c : Coupon) (discountAmount : ℚ)
  | invalid (r : CouponReject)
  | unknownCode
deriving DecidableEq, Repr

/-- POST `/api/coupons/validate` (`src/server-mongodb.js:983-1005`):
read-only — it takes the store and returns only a response. -/
def validateCoupon (st : Store) (now : ℤ) (code : String)
    (totalAmount : ℚ) : ValidateResp :=
  match findCoupon st.coupons code with
  | none => .unknownCode
  | some c =>
    match calculateDiscount c now totalAmount with
    | .error r => .invalid r
    | .ok d => .valid c d

/-- A client-supplied checkout line (`req.body.items[i]`, reduced). -/
structure CheckoutItemReq where
  productId : ℕ
  productName : String
  price : ℚ
  quantity : ℚ
  totalPrice : Option ℚ
deriving DecidableEq, Repr

/-- Per-item defaulting at POST `/api/checkout`
(`src/server-mongodb.js:2050-2060`), JavaScript `||` semantics. -/
def checkoutItem (i : CheckoutItemReq) : OrderItem :=
  { productId := i.productId,
    productName := jsStr i.productName "منتج غير معروف",
    price := jsNumD i.price 0,
    quantity := jsNumD i.quantity 1,
    totalPrice := jsNum i.totalPrice (i.price * i.quantity) }

/-- Request body of POST `/api/checkout` (reduced). -/
structure CheckoutReq where
  customerName : String
  items : List CheckoutItemReq
  total : Option ℚ
  subtotal : Option ℚ
  deliveryFee : Option ℚ
  couponDiscount : Option ℚ
  appliedCouponCode : Option String
  userId : Option String
deriving DecidableEq, Repr

/-- POST `/api/checkout` (`src/server-mongodb.js:2032-2126`): totals and
the coupon discount are taken from the client via `||` defaulting, the
applied coupon is recorded by code only — the coupon collection is
neither read nor written on this path — and the order is saved. -/
def checkout (st : Store) (req : CheckoutReq) : Store × Order :=
  let orderItems := req.items.map checkoutItem
  let orderSubtotal :=
    jsNum req.subtotal ((orderItems.map OrderItem.totalPrice).sum)
  let orderDeliveryFee := jsNum req.deliveryFee 0
  let orderCouponDiscount := jsNum req.couponDiscount 0
  let orderTotal :=
    jsNum req.total (orderSubtotal + orderDeliveryFee - orderCouponDiscount)
  let order := orderSave
    { customerName := req.customerName, items := orderItems,
      subtotal := orderSubtotal, deliveryFee := orderDeliveryFee,
      couponCode := jsStrOpt req.appliedCouponCode "",
      couponDiscount := orderCouponDiscount,
      total := orderTotal,
      userId := jsStrOpt req.userId "guest" }
  ({ st with orders := st.orders ++ [order] }, order)

/-- Request body of the add-to-cart endpoints (reduced). The guest
endpoint also destructures `productName`, `price` and `image` from the
body; they are kept here to state that the handler ignores them. -/
structure CartAddReq where
  userId : String
  productId : ℕ
  bodyProductName : String
  bodyPrice : ℚ
  quantity : ℚ
  bodyImage : String
  selectedOptions : SelectedOptions
  attachments : Attachments
deriving DecidableEq, Repr

/-- Response of the add-to-cart endpoints. -/
inductive CartResp where
  | merged (item : CartItem)
  | created (item : CartItem)
  | productNotFound
deriving DecidableEq, Repr

/-- The `(userId, productId, selectedOptions)` lookup of the add-to-cart
handlers. -/
def cartMatch (userId : String) (pid : ℕ) (opts : SelectedOptions)
    (i : CartItem) : Bool :=
  decide (i.userId = userId ∧ i.productId = pid ∧ i.selectedOptions = opts)

/-- Merge into an existing line: quantities add, attachments are replaced
only when the incoming ones are non-empty. -/
def mergeCartItem (req : CartAddReq) (it : CartItem) : CartItem :=
  { it with
    quantity := it.quantity + req.quantity,
    attachments :=
      if req.attachments.hasContent then req.attachments else it.attachments }

/-- The snapshot line created on no match: name, price and image come from
the product document, not from the request body. -/
def newCartItem (req : CartAddReq) (p : Product) : CartItem :=
  { userId := req.userId, productId := p.id, productName := p.name,
    price := p.price, quantity := req.quantity, image := p.mainImage,
    selectedOptions := req.selectedOptions, attachments := req.attachments }

/-- POST `/api/cart` (`src/server-mongodb.js:1049-1147`) and POST
`/api/user/:userId/cart` (`src/server-mongodb.js:1645-1744`) share this
merge rule: look the product up by numeric id (404 when absent), then
merge into the first line matching `(userId, productId, selectedOptions)`
or append a snapshot line. -/
def addToCart (st : Store) (req : CartAddReq) : Store × CartResp :=
  match st.products.find? (fun p => decide (p.id = req.productId)) with
  | none => (st, .productNotFound)
  | some product =>
    match st.carts.find?
        (cartMatch req.userId product.id req.selectedOptions) with
    | some it =>
      let carts := updateFirst
        (cartMatch req.userId product.id req.selectedOptions)
        (mergeCartItem req) st.carts
      ({ st with carts := carts }, .merged (mergeCartItem req it))
    | none =>
      ({ st with carts := st.carts ++ [newCartItem req product] },
        .created (newCartItem req product))

/-- Update payload of PUT `/api/products/:id` (reduced; base64 image
validation and optimization are elided — a valid replacement main image
is `some`, an absent one keeps the stored image). -/
structure ProductUpdate where
  name : String
  description : String
  price : ℚ
  stock : ℕ
  categoryId : ℕ
  mainImage : Option String
deriving DecidableEq, Repr

def applyProductUpdate (u : ProductUpdate) (p : Product) : Product :=
  { p with
    name := u.name, description := u.description, price := u.price,
    stock := u.stock, categoryId := u.categoryId,
    mainImage := u.mainImage.getD p.mainImage }

/-- PUT `/api/products/:id` (`src/server-mongodb.js:549-559`):
`findOneAndUpdate` on the products collection; no other collection is
touched. -/
def updateProduct (st : Store) (pid : ℕ) (u : ProductUpdate) :
    Store × Option Product :=
  match st.products.find? (fun p => decide (p.id = pid)) with
  | none => (st, none)
  | some p =>
    let products := updateFirst (fun q => decide (q.id = pid))
      (applyProductUpdate u) st.products
    ({ st with products := products }, some (applyProductUpdate u p))

/-- Response of the add-to-wishlist endpoints (`duplicate` is the HTTP 400
rejection, `productNotFound` the HTTP 404 of the user endpoint). -/
inductive WishlistResp where
  | added (item : WishlistItem)
  | duplicate
  | productNotFound
deriving DecidableEq, Repr

/-- The `(userId, productId)` lookup of the wishlist handlers. -/
def wishlistMatch (userId : String) (pid : ℕ) (w : WishlistItem) : Bool :=
  decide (w.userId = userId ∧ w.productId = pid)

/-- POST `/api/wishlist` (`src/server-mongodb.js:1210-1234`): duplicates
of `(userId, productId)` are rejected with 400; name, price and image are
taken from the request body (no product lookup happens). -/
def addWishlistGuest (st : Store) (userId : String) (productId : ℕ)
    (productName : String) (price : ℚ) (image : String) :
    Store × WishlistResp :=
  match st.wishlist.find? (wishlistMatch userId productId) with
  | some _ => (st, .duplicate)
  | none =>
    let item : WishlistItem :=
      { userId := userId, productId := productId,
        productName := productName, price := price, image := image }
    ({ st with wishlist := st.wishlist ++ [item] }, .added item)

/-- POST `/api/user/:userId/wishlist` (`src/server-mongodb.js:1943-1974`):
the product is looked up first (404 when absent), then duplicates are
rejected with 400, else a product snapshot is stored. -/
def addWishlistUser (st : Store) (userId : String) (productId : ℕ) :
    Store × WishlistResp :=
  match st.products.find? (fun p => decide (p.id = productId)) with
  | none => (st, .productNotFound)
  | some product =>
    match st.wishlist.find? (wishlistMatch userId productId) with
    | some _ => (st, .duplicate)
    | none =>
      let item : WishlistItem :=
        { userId := userId, productId := productId,
          productName := product.name, price := product.price,
          image := product.mainImage }
      ({ st with wishlist := st.wishlist ++ [item] }, .added item)

/-- No user's wishlist holds two entries for one product. -/
def WishlistSetLike (l : List WishlistItem) : Prop :=
  l.Pairwise (fun a b => ¬(a.userId = b.userId ∧ a.productId = b.productId))

/-- Response of DELETE `/api/categories/:id`: 400 with the product count,
404, or success. -/
inductive DeleteCategoryResp where
  | blocked (productCount : ℕ)
  | missing
  | deleted
deriving DecidableEq, Repr

/-- DELETE `/api/categories/:id` (`src/server-mongodb.js:318-345`): 400
when the category still has active products (nothing changes); otherwise
a soft delete that only clears `isActive` on the matching document. -/
def deleteCategory (st : Store) (cid : ℕ) : Store × DeleteCategoryResp :=
  let productCount := st.products.countP
    (fun p => decide (p.categoryId = cid ∧ p.isActive = true))
  if 0 < productCount then (st, .blocked productCount)
  else
    match st.categories.find? (fun c => decide (c.id = cid)) with
    | none => (st, .missing)
    | some _ =>
      let categories := updateFirst (fun c => decide (c.id = cid))
        (fun c => { c with isActive := false }) st.categories
      ({ st with categories := categories }, .deleted)

/-- GET `/api/categories` (`src/server-mongodb.js:227-235`): only active
categories are returned (sorting elided). -/
def getCategories (st : Store) : List Category :=
  st.categories.filter (fun c => c.isActive)

/-- GET `/api/categories/:id` (`src/server-mongodb.js:237-248`): 404
unless an active category with the id exists. -/
def getCategory (st : Store) (cid : ℕ) : Option Category :=
  st.categories.find? (fun c => decide (c.id = cid ∧ c.isActive = true))

/-! ### Concrete fixtures for counterexamples and witnesses -/

/-- An active 10% coupon with spare usage. -/
def cexCoupon : Coupon :=
  { code := "SAVE10", discountType := .percentage, discountValue := 10,
    minOrderAmount := 0, maxUsage := some 100, usedCount := 0,
    isActive := true, expiresAt := none }

/-- A store holding only the coupon `cexCoupon`. -/
def cexStore : Store :=
  { categories := [], products := [], coupons := [cexCoupon],
    carts := [], wishlist := [], orders := [] }

/-- A checkout request that references `SAVE10` and claims a discount of
999 for a 100-unit cart. -/
def cexCheckoutReq : CheckoutReq :=
  { customerName := "A",
    items := [{ productId := 1, productName := "p", price := 100,
                quantity := 1, totalPrice := some 100 }],
    total := none, subtotal := none, deliveryFee := none,
    couponDiscount := some 999, appliedCouponCode := some "SAVE10",
    userId := none }

/-- An active fixed-30 coupon requiring a minimum order of 50. -/
def cexMinCoupon : Coupon :=
  { code := "MIN50", discountType := .fixed, discountValue := 30,
    minOrderAmount := 50, maxUsage := none, usedCount := 0,
    isActive := true, expiresAt := none }

/-- A store holding only the coupon `cexMinCoupon`. -/
def cexMinStore : Store :=
  { categories := [], products := [], coupons := [cexMinCoupon],
    carts := [], wishlist := [], orders := [] }

/-- An order request of subtotal 40 that supplies the code `MIN50`. -/
def cexOrderReq : CreateOrderReq :=
  { customerName := "B",
    items := [{ productId := 1, productName := "p", price := 40,
                quantity := 1, totalPrice := 40 }],
    couponCode := "MIN50", deliveryFee := 0, userId := "guest" }

/-- An order request of subtotal 100 that supplies the code `SAVE10`. -/
def wOrderReq : CreateOrderReq :=
  { customerName := "D",
    items := [{ productId := 1, productName := "p", price := 100,
                quantity := 1, totalPrice := 100 }],
    couponCode := "SAVE10", deliveryFee := 0, userId := "guest" }

/-- A checkout request whose claimed discount 50 exceeds the 30-unit
cart, with no delivery fee. -/
def wOverReq : CheckoutReq :=
  { customerName := "C",
    items := [{ productId := 1, productName := "p", price := 30,
                quantity := 1, totalPrice := some 30 }],
    total := none, subtotal := none, deliveryFee := none,
    couponDiscount := some 50, appliedCouponCode := none, userId := none }

/-- A catalog product. -/
def wProduct : Product :=
  { id := 1, name := "Gown", description := "", price := 250, stock := 10,
    categoryId := 1, mainImage := "img1", isActive := true }

/-- A store holding only the product `wProduct`, with an empty cart. -/
def wCartStore : Store :=
  { categories := [], products := [wProduct], coupons := [],
    carts := [], wishlist := [], orders := [] }

/-- An add-to-cart request for `wProduct` whose body also carries a bogus
name, price and image. -/
def wCartReq : CartAddReq :=
  { userId := "guest", productId := 1, bodyProductName := "bogus",
    bodyPrice := 1, quantity := 2, bodyImage := "bogus.png",
    selectedOptions := [("size", "M")], attachments := { text := "", images := [] } }

/-- A store whose wishlist already holds `(u, 5)` while no product 5
exists (the entry was added through the guest endpoint, which performs no
product lookup). -/
def cexWishStore : Store :=
  { categories := [], products := [], coupons := [], carts := [],
    wishlist := [{ userId := "u", productId := 5, productName := "n",
                   price := 1, image := "img" }], orders := [] }

/-- A category with no products. -/
def wCategory : Category :=
  { id := 1, name := "Cat", description := "", image := "", isActive := true }

/-- A store holding only the category `wCategory`. -/
def wCatStore : Store :=
  { categories := [wCategory], products := [], coupons := [], carts := [],
    wishlist := [], orders := [] }

/-! ### Claim theorems for the pure coupon calculator -/

theorem qmin_eq_min (a b : ℚ) : qmin a b = min a b := by
  rw [qmin, min_def]

theorem qmax_eq_max (a b : ℚ) : qmax a b = max a b := by
  rw [qmax, max_def]

/-- C1: for every coupon that passes validation and every subtotal `S ≥ 0`
(with a nonnegative face value), the computed discount is
`min (S * V / 100) S` for a percentage coupon and `min V S` for a fixed
coupon; it is never negative and never exceeds `S`. -/
theorem calculateDiscount_ok_formula (c : Coupon) (now : ℤ) (S d : ℚ)
    (hS : 0 ≤ S) (hV : 0 ≤ c.discountValue)
    (h : calculateDiscount c now S = .ok d) :
    (c.discountType = .percentage → d = min (S * c.discountValue / 100) S) ∧
    (c.discountType = .fixed → d = min c.discountValue S) ∧
    0 ≤ d ∧ d ≤ S := by
  unfold calculateDiscount at h
  split at h
  · exact absurd h (by simp)
  · split at h
    · exact absurd h (by simp)
    · split at h
      · exact absurd h (by simp)
      · split at h
        · exact absurd h (by simp)
        · simp only [Except.ok.injEq] at h
          subst h
          rw [qmin_eq_min]
          cases hty : c.discountType with
          | percentage =>
              refine ⟨fun _ => by simp [hty], fun hf => by simp [hty] at hf, ?_, ?_⟩
              · exact le_min (by positivity) hS
              · simp [hty, min_le_right]
          | fixed =>
              refine ⟨fun hp => by simp [hty] at hp, fun _ => by simp [hty], ?_, ?_⟩
              · exact le_min hV hS
              · simp [hty, min_le_right]

/-- C1 witness: the 10% coupon on subtotal 200 yields discount 20 and the
guarantees hold there. -/
theorem calculateDiscount_ok_formula_witness :
    (0:ℚ) ≤ 200 ∧ (0:ℚ) ≤ pctCoupon.discountValue ∧
    calculateDiscount pctCoupon 0 200 = .ok 20 ∧
    ((pctCoupon.discountType = .percentage →
        (20:ℚ) = min (200 * pctCoupon.discountValue / 100) 200) ∧
      (pctCoupon.discountType = .fixed → (20:ℚ) = min pctCoupon.discountValue 200) ∧
      (0:ℚ) ≤ 20 ∧ (20:ℚ) ≤ 200) :=
  ⟨by norm_num, by norm_num [pctCoupon],
    by norm_num [calculateDiscount, pctCoupon, couponExpired, usageLimitHit, qmin],
    calculateDiscount_ok_formula pctCoupon 0 200 20 (by norm_num)
      (by norm_num [pctCoupon])
      (by norm_num [calculateDiscount, pctCoupon, couponExpired, usageLimitHit, qmin])⟩

/-- C2: validation is fail-fast in the fixed order isActive, expiry, usage
limit, minimum order, each failing with its own distinct reason; a coupon
whose usage cap is reached is rejected for every subtotal, and when the
earlier checks pass it is rejected specifically with the usage-limit
reason. -/
theorem calculateDiscount_failfast_order (c : Coupon) (now : ℤ) :
    (c.isActive = false →
      ∀ S : ℚ, calculateDiscount c now S = .error .inactive) ∧
    (c.isActive = true → couponExpired c now = true →
      ∀ S : ℚ, calculateDiscount c now S = .error .expired) ∧
    (c.isActive = true → couponExpired c now = false → usageLimitHit c = true →
      ∀ S : ℚ, calculateDiscount c now S = .error .usageLimitReached) ∧
    (c.isActive = true → couponExpired c now = false → usageLimitHit c = false →
      ∀ S : ℚ, S < c.minOrderAmount →
        calculateDiscount c now S = .error .belowMinimum) ∧
    (∀ m : ℕ, c.maxUsage = some m → m ≤ c.usedCount →
      ∀ S : ℚ, ∃ r : CouponReject, calculateDiscount c now S = .error r) := by
  refine ⟨?_, ?_, ?_, ?_, ?_⟩
  · intro hA S
    simp [calculateDiscount, hA]
  · intro hA hE S
    simp [calculateDiscount, hA, hE]
  · intro hA hE hU S
    simp [calculateDiscount, hA, hE, hU]
  · intro hA hE hU S hmin
    simp [calculateDiscount, hA, hE, hU, hmin]
  · intro m hm hcnt S
    by_cases hA : c.isActive = true
    · by_cases hE : couponExpired c now = true
      · exact ⟨.expired, by simp [calculateDiscount, hA, hE]⟩
      · have hU : usageLimitHit c = true := by
          simp [usageLimitHit, hm, hcnt]
        exact ⟨.usageLimitReached,
          by simp [calculateDiscount, hA, eq_false_of_ne_true hE, hU]⟩
    · exact ⟨.inactive,
        by simp [calculateDiscount, eq_false_of_ne_true hA]⟩

/-- C2 witness: the exhausted coupon (`usedCount = maxUsage = 3`, active,
unexpired) is rejected with the usage-limit reason at subtotal 1000. -/
theorem calculateDiscount_failfast_order_witness :
    usedUpCoupon.isActive = true ∧ couponExpired usedUpCoupon 0 = false ∧
    usageLimitHit usedUpCoupon = true ∧
    calculateDiscount usedUpCoupon 0 1000 = .error .usageLimitReached :=
  ⟨rfl, rfl, by decide,
    (calculateDiscount_failfast_order usedUpCoupon 0).2.2.1
      rfl rfl (by decide) 1000⟩

/-! ### Helper lemmas about `updateFirst` and `List.find?` -/

theorem updateFirst_of_forall_false {α : Type} (p : α → Bool) (f : α → α)
    {l : List α} (h : ∀ y ∈ l, ¬ p y = true) : updateFirst p f l = l := by
  induction l with
  | nil => rfl
  | cons x xs ih =>
    have hx : ¬ p x = true := h x (by simp)
    simp only [updateFirst, if_neg hx]
    rw [ih (fun y hy => h y (by simp [hy]))]

theorem updateFirst_length {α : Type} (p : α → Bool) (f : α → α)
    (l : List α) : (updateFirst p f l).length = l.length := by
  induction l with
  | nil => rfl
  | cons x xs ih =>
    by_cases hx : p x = true
    · simp [updateFirst, hx]
    · simp only [updateFirst, if_neg hx, List.length_cons, ih]

theorem find?_some_updateFirst {α : Type} (p : α → Bool) (f : α → α)
    {l : List α} {x : α} (h : l.find? p = some x) :
    ∃ l1 l2, l = l1 ++ x :: l2 ∧ (∀ y ∈ l1, ¬ p y = true) ∧ p x = true ∧
      updateFirst p f l = l1 ++ f x :: l2 := by
  induction l with
  | nil => simp [List.find?] at h
  | cons a as ih =>
    by_cases ha : p a = true
    · rw [List.find?_cons_of_pos _ ha] at h
      obtain rfl : a = x := by injection h
      exact ⟨[], as, by simp, by simp, ha, by simp [updateFirst, ha]⟩
    · rw [List.find?_cons_of_neg _ ha] at h
      obtain ⟨l1, l2, rfl, h1, hx, hu⟩ := ih h
      refine ⟨a :: l1, l2, rfl, ?_, hx, ?_⟩
      · intro y hy
        rcases List.mem_cons.mp hy with rfl | hy
        · exact ha
        · exact h1 y hy
      · simp only [updateFirst, if_neg ha, List.cons_append, hu]

theorem updateFirst_append_of_forall_false {α : Type} (p : α → Bool)
    (f : α → α) {l1 : List α} (l2 : List α)
    (h : ∀ y ∈ l1, ¬ p y = true) :
    updateFirst p f (l1 ++ l2) = l1 ++ updateFirst p f l2 := by
  induction l1 with
  | nil => rfl
  | cons a as ih =>
    have ha : ¬ p a = true := h a (by simp)
    simp only [List.cons_append, updateFirst, if_neg ha, List.append_eq]
    rw [ih (fun y hy => h y (by simp [hy]))]

/-! ### Coupon usage accounting across the order paths -/

theorem orderCouponStep_unchanged (coupons : List Coupon) (now : ℤ)
    (code : String) (sub : ℚ)
    (h : code = "" ∨ coupons.find? (couponQuery code) = none ∨
      ∃ c r, coupons.find? (couponQuery code) = some c ∧
        calculateDiscount c now sub = Except.error r) :
    (orderCouponStep coupons now code sub).2 = coupons := by
  by_cases hc0 : code = ""
  · simp [orderCouponStep, hc0]
  · rcases h with h0 | hnone | ⟨c, r, hc, herr⟩
    · exact absurd h0 hc0
    · simp [orderCouponStep, hc0, findCoupon, hnone]
    · simp [orderCouponStep, hc0, findCoupon, hc, herr]

/-- C3 counterexample: a POST `/api/checkout` order that references coupon
`SAVE10` leaves the coupon collection untouched — its `usedCount` stays
0 instead of being incremented by one. -/
theorem checkout_no_usedCount_increment_cex :
    (checkout cexStore cexCheckoutReq).2.couponCode = "SAVE10" ∧
    (checkout cexStore cexCheckoutReq).1.coupons = [cexCoupon] ∧
    cexCoupon.usedCount = 0 := by
  refine ⟨rfl, rfl, rfl⟩

/-- C3 (amended): on POST `/api/orders`, when the supplied code resolves
to an active coupon and validation succeeds, exactly that coupon's
`usedCount` is incremented by one and persisted, with every other coupon
untouched; when the code is absent or unknown or validation fails, no
coupon changes; POST `/api/coupons/validate` is read-only by
construction; but POST `/api/checkout` never increments the referenced
coupon's `usedCount`. -/
theorem usedCount_increment_orders_only (st : Store) (now : ℤ)
    (req : CreateOrderReq) (coupon : Coupon) (d : ℚ)
    (hcode : ¬ req.couponCode = "")
    (hfind : findCoupon st.coupons req.couponCode = some coupon)
    (hok : calculateDiscount coupon now (serverSubtotal req.items) =
      Except.ok d) :
    (∃ l1 l2, st.coupons = l1 ++ coupon :: l2 ∧
      (createOrder st now req).1.coupons =
        l1 ++ { coupon with usedCount := coupon.usedCount + 1 } :: l2) ∧
    (∀ st2 : Store, ∀ req2 : CreateOrderReq,
      (req2.couponCode = "" ∨
        findCoupon st2.coupons req2.couponCode = none ∨
        ∃ c r, findCoupon st2.coupons req2.couponCode = some c ∧
          calculateDiscount c now (serverSubtotal req2.items) =
            Except.error r) →
      (createOrder st2 now req2).1.coupons = st2.coupons) ∧
    (∀ st3 : Store, ∀ req3 : CheckoutReq,
      (checkout st3 req3).1.coupons = st3.coupons) := by
  refine ⟨?_, ?_, ?_⟩
  · obtain ⟨l1, l2, hl, h1, hx, hu⟩ := find?_some_updateFirst
      (couponQuery req.couponCode)
      (fun c => { c with usedCount := c.usedCount + 1 }) hfind
    refine ⟨l1, l2, hl, ?_⟩
    simp only [createOrder, orderCouponStep, if_neg hcode, hfind, hok]
    exact hu
  · intro st2 req2 h
    have := orderCouponStep_unchanged st2.coupons now req2.couponCode
      (serverSubtotal req2.items) h
    simp only [createOrder]
    exact this
  · intro st3 req3
    rfl

/-- C3 witness: creating an order with `SAVE10` on a 100-unit cart bumps
its `usedCount` from 0 to 1. -/
theorem usedCount_increment_orders_only_witness :
    ¬ wOrderReq.couponCode = "" ∧
    findCoupon cexStore.coupons wOrderReq.couponCode = some cexCoupon ∧
    calculateDiscount cexCoupon 0 (serverSubtotal wOrderReq.items) =
      Except.ok 10 ∧
    ∃ l1 l2, cexStore.coupons = l1 ++ cexCoupon :: l2 ∧
      (createOrder cexStore 0 wOrderReq).1.coupons =
        l1 ++ { cexCoupon with usedCount := cexCoupon.usedCount + 1 } :: l2 :=
  ⟨by simp [wOrderReq], rfl,
    by norm_num [calculateDiscount, cexCoupon, couponExpired, usageLimitHit,
      qmin, serverSubtotal, wOrderReq],
    (usedCount_increment_orders_only cexStore 0 wOrderReq cexCoupon 10
      (by simp [wOrderReq]) rfl
      (by norm_num [calculateDiscount, cexCoupon, couponExpired,
        usageLimitHit, qmin, serverSubtotal, wOrderReq])).1⟩

/-! ### Discount provenance -/

/-- C4 counterexample: at checkout the persisted `couponDiscount` is the
client-supplied 999, although the server-side calculator on the computed
100-unit subtotal yields 10 for the referenced coupon. -/
theorem checkout_client_discount_cex :
    (checkout cexStore cexCheckoutReq).2.couponDiscount = 999 ∧
    (checkout cexStore cexCheckoutReq).2.couponCode = "SAVE10" ∧
    calculateDiscount cexCoupon 0
      (serverSubtotal (checkout cexStore cexCheckoutReq).2.items) =
      Except.ok 10 ∧
    (999 : ℚ) ≠ 10 := by
  refine ⟨?_, rfl, ?_, by norm_num⟩
  · norm_num [checkout, cexCheckoutReq, orderSave, jsNum]
  · norm_num [checkout, cexCheckoutReq, orderSave, checkoutItem,
      serverSubtotal, jsNum, jsNumD, jsStr, calculateDiscount, cexCoupon,
      couponExpired, usageLimitHit, qmin]

/-- C4 (amended): on POST `/api/orders` the persisted `couponDiscount` is
server-derived — 0, or the calculator's result on the server-computed
subtotal — whereas POST `/api/checkout` persists the client-supplied
`couponDiscount` (defaulting to 0), independently of the coupon store and
without recomputation. -/
theorem couponDiscount_provenance :
    (∀ st : Store, ∀ now : ℤ, ∀ req : CreateOrderReq,
      (createOrder st now req).2.couponDiscount = 0 ∨
      ∃ coupon, findCoupon st.coupons req.couponCode = some coupon ∧
        calculateDiscount coupon now (serverSubtotal req.items) =
          Except.ok ((createOrder st now req).2.couponDiscount)) ∧
    (∀ st : Store, ∀ req : CheckoutReq,
      (checkout st req).2.couponDiscount = jsNum req.couponDiscount 0) ∧
    (∀ st st2 : Store, ∀ req : CheckoutReq,
      (checkout st req).2.couponDiscount =
        (checkout st2 req).2.couponDiscount) := by
  refine ⟨?_, fun st req => rfl, fun st st2 req => rfl⟩
  intro st now req
  by_cases h0 : req.couponCode = ""
  · left
    simp [createOrder, orderCouponStep, h0, orderSave]
  · cases hf : findCoupon st.coupons req.couponCode with
    | none =>
        left
        simp [createOrder, orderCouponStep, h0, hf, orderSave]
    | some c =>
        cases hc : calculateDiscount c now (serverSubtotal req.items) with
        | error r =>
            left
            simp [createOrder, orderCouponStep, h0, hf, hc, orderSave]
        | ok d =>
            right
            refine ⟨c, rfl, ?_⟩
            have hval : (createOrder st now req).2.couponDiscount = d := by
              simp [createOrder, orderCouponStep, h0, hf, hc, orderSave]
            rw [hval]
            exact hc

/-! ### Order totals -/

theorem orderSave_total_spec (d : OrderDraft) :
    (orderSave d).total = max 0 ((orderSave d).subtotal +
      (orderSave d).deliveryFee - (orderSave d).couponDiscount) ∧
    0 ≤ (orderSave d).total ∧
    ((orderSave d).deliveryFee = 0 →
      (orderSave d).subtotal < (orderSave d).couponDiscount →
      (orderSave d).total = 0) := by
  refine ⟨?_, ?_, ?_⟩
  · simp [orderSave, qmax_eq_max]
  · simp only [orderSave, qmax_eq_max]
    exact le_max_left 0 _
  · intro hf hlt
    simp only [orderSave] at hf hlt ⊢
    rw [qmax_eq_max]
    refine max_eq_left (le_of_lt ?_)
    linarith

/-- C5: on both creation paths the persisted total equals
`max 0 (subtotal + deliveryFee - couponDiscount)`, hence is never
negative, and with a zero fee and a discount exceeding the subtotal it is
exactly 0. (The derivation lives in the order model's save step.) -/
theorem order_total_clamped (st : Store) (now : ℤ) (reqO : CreateOrderReq)
    (reqC : CheckoutReq) :
    ((createOrder st now reqO).2.total =
        max 0 ((createOrder st now reqO).2.subtotal +
          (createOrder st now reqO).2.deliveryFee -
          (createOrder st now reqO).2.couponDiscount) ∧
      0 ≤ (createOrder st now reqO).2.total ∧
      ((createOrder st now reqO).2.deliveryFee = 0 →
        (createOrder st now reqO).2.subtotal <
          (createOrder st now reqO).2.couponDiscount →
        (createOrder st now reqO).2.total = 0)) ∧
    ((checkout st reqC).2.total =
        max 0 ((checkout st reqC).2.subtotal +
          (checkout st reqC).2.deliveryFee -
          (checkout st reqC).2.couponDiscount) ∧
      0 ≤ (checkout st reqC).2.total ∧
      ((checkout st reqC).2.deliveryFee = 0 →
        (checkout st reqC).2.subtotal <
          (checkout st reqC).2.couponDiscount →
        (checkout st reqC).2.total = 0)) :=
  ⟨orderSave_total_spec _, orderSave_total_spec _⟩

/-- C5 witness: a checkout of a 30-unit cart with a 50-unit discount and
no delivery fee ends with total 0, not -20. -/
theorem order_total_clamped_witness :
    (checkout cexStore wOverReq).2.deliveryFee = 0 ∧
    (checkout cexStore wOverReq).2.subtotal <
      (checkout cexStore wOverReq).2.couponDiscount ∧
    (checkout cexStore wOverReq).2.total = 0 := by
  have hf : (checkout cexStore wOverReq).2.deliveryFee = 0 := by
    norm_num [checkout, wOverReq, orderSave, jsNum]
  have hlt : (checkout cexStore wOverReq).2.subtotal <
      (checkout cexStore wOverReq).2.couponDiscount := by
    norm_num [checkout, wOverReq, orderSave, checkoutItem, jsNum, jsNumD,
      jsStr]
  exact ⟨hf, hlt,
    (order_total_clamped cexStore 0 wOrderReq wOverReq).2.2.2 hf hlt⟩

/-! ### Rejection reporting -/

/-- C6 counterexample: the `MIN50` coupon fails validation on a 40-unit
order, yet POST `/api/orders` creates the order (201) carrying the coupon
code and a silent zero discount instead of rejecting. -/
theorem createOrder_silent_zero_discount_cex :
    calculateDiscount cexMinCoupon 0 (serverSubtotal cexOrderReq.items) =
      Except.error .belowMinimum ∧
    (createOrder cexMinStore 0 cexOrderReq).1.orders.length =
      cexMinStore.orders.length + 1 ∧
    (createOrder cexMinStore 0 cexOrderReq).2.couponCode = "MIN50" ∧
    (createOrder cexMinStore 0 cexOrderReq).2.couponDiscount = 0 := by
  have hcalc : calculateDiscount cexMinCoupon 0
      (serverSubtotal cexOrderReq.items) = Except.error .belowMinimum := by
    norm_num [calculateDiscount, cexMinCoupon, couponExpired, usageLimitHit,
      serverSubtotal, cexOrderReq]
  have hfind : findCoupon cexMinStore.coupons cexOrderReq.couponCode =
      some cexMinCoupon := rfl
  refine ⟨hcalc, ?_, ?_, ?_⟩
  · simp [createOrder]
  · rfl
  · have h0 : ¬ cexOrderReq.couponCode = "" := by simp [cexOrderReq]
    simp [createOrder, orderCouponStep, h0, hfind, hcalc, orderSave]

/-- C6 (amended): POST `/api/coupons/validate` reports coupon failures
distinguishably — 404 for an unknown code, 400 carrying the precise
rejection reason — but POST `/api/orders` silently converts a failing
coupon into a created order with zero discount. -/
theorem coupon_rejection_reporting :
    (∀ st : Store, ∀ now : ℤ, ∀ code : String, ∀ amt : ℚ,
      findCoupon st.coupons code = none →
      validateCoupon st now code amt = .unknownCode) ∧
    (∀ st : Store, ∀ now : ℤ, ∀ code : String, ∀ amt : ℚ,
      ∀ c : Coupon, ∀ r : CouponReject,
      findCoupon st.coupons code = some c →
      calculateDiscount c now amt = Except.error r →
      validateCoupon st now code amt = .invalid r) ∧
    (∀ r1 r2 : CouponReject,
      ValidateResp.invalid r1 = ValidateResp.invalid r2 → r1 = r2) ∧
    (∀ st : Store, ∀ now : ℤ, ∀ req : CreateOrderReq,
      ∀ c : Coupon, ∀ r : CouponReject,
      findCoupon st.coupons req.couponCode = some c →
      calculateDiscount c now (serverSubtotal req.items) = Except.error r →
      (createOrder st now req).2.couponDiscount = 0 ∧
      (createOrder st now req).1.orders =
        st.orders ++ [(createOrder st now req).2]) := by
  refine ⟨?_, ?_, ?_, ?_⟩
  · intro st now code amt h
    simp [validateCoupon, h]
  · intro st now code amt c r hc herr
    simp [validateCoupon, hc, herr]
  · intro r1 r2 h
    injection h
  · intro st now req c r hf herr
    constructor
    · by_cases h0 : req.couponCode = ""
      · simp [createOrder, orderCouponStep, h0, orderSave]
      · simp [createOrder, orderCouponStep, h0, hf, herr, orderSave]
    · rfl

/-- C6 witness: validating `MIN50` at 40 answers the 400 response carrying
the below-minimum reason, while the same failing coupon leaves the
created order with zero discount. -/
theorem coupon_rejection_reporting_witness :
    findCoupon cexMinStore.coupons "MIN50" = some cexMinCoupon ∧
    calculateDiscount cexMinCoupon 0 40 = Except.error .belowMinimum ∧
    validateCoupon cexMinStore 0 "MIN50" 40 =
      ValidateResp.invalid .belowMinimum ∧
    (createOrder cexMinStore 0 cexOrderReq).2.couponDiscount = 0 := by
  have hfind : findCoupon cexMinStore.coupons "MIN50" = some cexMinCoupon :=
    rfl
  have hcalc : calculateDiscount cexMinCoupon 0 40 =
      Except.error .belowMinimum := by
    norm_num [calculateDiscount, cexMinCoupon, couponExpired, usageLimitHit]
  have hfind2 : findCoupon cexMinStore.coupons cexOrderReq.couponCode =
      some cexMinCoupon := rfl
  have hcalc2 : calculateDiscount cexMinCoupon 0
      (serverSubtotal cexOrderReq.items) = Except.error .belowMinimum := by
    norm_num [calculateDiscount, cexMinCoupon, couponExpired, usageLimitHit,
      serverSubtotal, cexOrderReq]
  exact ⟨hfind, hcalc,
    coupon_rejection_reporting.2.1 cexMinStore 0 "MIN50" 40 cexMinCoupon
      .belowMinimum hfind hcalc,
    (coupon_rejection_reporting.2.2.2 cexMinStore 0 cexOrderReq cexMinCoupon
      .belowMinimum hfind2 hcalc2).1⟩

/-! ### Cart merge rule and snapshot/frame properties -/

/-- C7: the add-to-cart endpoints merge by the tuple
`(userId, productId, selectedOptions)` compared by value: on a match the
first matching line's quantity grows by the incoming quantity and no row
is added; on no match a new distinct line is appended; hence adding the
same tuple twice (starting with no matching line) ends with exactly one
matching line whose quantity is the sum. -/
theorem cart_merge_rule (st : Store) (req : CartAddReq) (product : Product)
    (hp : st.products.find? (fun p => decide (p.id = req.productId)) =
      some product) :
    (∀ it : CartItem,
      st.carts.find? (cartMatch req.userId product.id req.selectedOptions) =
        some it →
      (addToCart st req).1.carts.length = st.carts.length ∧
      (addToCart st req).2 = .merged (mergeCartItem req it) ∧
      (mergeCartItem req it).quantity = it.quantity + req.quantity) ∧
    (st.carts.find? (cartMatch req.userId product.id req.selectedOptions) =
        none →
      (addToCart st req).1.carts = st.carts ++ [newCartItem req product] ∧
      (addToCart st req).2 = .created (newCartItem req product) ∧
      (newCartItem req product).userId = req.userId ∧
      (newCartItem req product).productId = product.id ∧
      (newCartItem req product).selectedOptions = req.selectedOptions) ∧
    (st.carts.find? (cartMatch req.userId product.id req.selectedOptions) =
        none →
      (addToCart (addToCart st req).1 req).1.carts.filter
          (cartMatch req.userId product.id req.selectedOptions) =
        [mergeCartItem req (newCartItem req product)] ∧
      (mergeCartItem req (newCartItem req product)).quantity =
        req.quantity + req.quantity) := by
  refine ⟨?_, ?_, ?_⟩
  · intro it hit
    refine ⟨?_, ?_, ?_⟩
    · simp only [addToCart, hp, hit]
      exact updateFirst_length _ _ _
    · simp [addToCart, hp, hit]
    · simp [mergeCartItem]
  · intro h
    exact ⟨by simp [addToCart, hp, h], by simp [addToCart, hp, h],
      rfl, rfl, rfl⟩
  · intro h
    have hall : ∀ y ∈ st.carts,
        ¬ cartMatch req.userId product.id req.selectedOptions y = true :=
      List.find?_eq_none.mp h
    have hnew : cartMatch req.userId product.id req.selectedOptions
        (newCartItem req product) = true := by
      simp [cartMatch, newCartItem]
    have hmerge : cartMatch req.userId product.id req.selectedOptions
        (mergeCartItem req (newCartItem req product)) = true := by
      simp [cartMatch, mergeCartItem, newCartItem]
    have hadd1 : addToCart st req =
        ({ st with carts := st.carts ++ [newCartItem req product] },
          .created (newCartItem req product)) := by
      simp [addToCart, hp, h]
    have hfind2 : (st.carts ++ [newCartItem req product]).find?
        (cartMatch req.userId product.id req.selectedOptions) =
        some (newCartItem req product) := by
      rw [List.find?_append, h]
      simp [List.find?_cons_of_pos _ hnew]
    have hupdate : updateFirst
        (cartMatch req.userId product.id req.selectedOptions)
        (mergeCartItem req) (st.carts ++ [newCartItem req product]) =
        st.carts ++ [mergeCartItem req (newCartItem req product)] := by
      rw [updateFirst_append_of_forall_false _ _ _ hall]
      simp [updateFirst, hnew]
    have hfilter : st.carts.filter
        (cartMatch req.userId product.id req.selectedOptions) = [] :=
      List.filter_eq_nil_iff.mpr hall
    constructor
    · rw [hadd1]
      simp only [addToCart, hp, hfind2]
      rw [hupdate, List.filter_append, hfilter]
      simp [hmerge]
    · simp [mergeCartItem, newCartItem]

/-- C7 witness: adding product 1 with options {size: M} twice to an empty
cart yields a single matching line of quantity 4. -/
theorem cart_merge_rule_witness :
    wCartStore.products.find?
      (fun p => decide (p.id = wCartReq.productId)) = some wProduct ∧
    wCartStore.carts.find?
      (cartMatch wCartReq.userId wProduct.id wCartReq.selectedOptions) =
      none ∧
    ((addToCart (addToCart wCartStore wCartReq).1 wCartReq).1.carts.filter
        (cartMatch wCartReq.userId wProduct.id wCartReq.selectedOptions) =
      [mergeCartItem wCartReq (newCartItem wCartReq wProduct)] ∧
    (mergeCartItem wCartReq (newCartItem wCartReq wProduct)).quantity =
      wCartReq.quantity + wCartReq.quantity) :=
  ⟨rfl, rfl, (cart_merge_rule wCartStore wCartReq wProduct rfl).2.2 rfl⟩

/-- C8: a newly created cart line snapshots the product document's name,
price and image — the handler's result does not depend on the
request-body name, price or image — and a later product update rewrites
only the products collection, leaving every existing cart line unchanged. -/
theorem cart_snapshot_frame (st : Store) (req : CartAddReq)
    (product : Product)
    (hp : st.products.find? (fun p => decide (p.id = req.productId)) =
      some product)
    (hnone : st.carts.find?
      (cartMatch req.userId product.id req.selectedOptions) = none) :
    ((addToCart st req).2 = .created (newCartItem req product) ∧
      (newCartItem req product).productName = product.name ∧
      (newCartItem req product).price = product.price ∧
      (newCartItem req product).image = product.mainImage) ∧
    (∀ n : String, ∀ pr : ℚ, ∀ im : String,
      addToCart st
        { req with bodyProductName := n, bodyPrice := pr, bodyImage := im } =
        addToCart st req) ∧
    (∀ st2 : Store, ∀ pid : ℕ, ∀ u : ProductUpdate,
      (updateProduct st2 pid u).1.carts = st2.carts) := by
  refine ⟨⟨?_, rfl, rfl, rfl⟩, ?_, ?_⟩
  · simp [addToCart, hp, hnone]
  · intro n pr im
    rfl
  · intro st2 pid u
    unfold updateProduct
    cases hq : st2.products.find? (fun p => decide (p.id = pid)) <;> rfl

/-- C8 witness: the line created for product 1 carries the catalog name
`Gown`, price 250 and image `img1`, not the bogus body values. -/
theorem cart_snapshot_frame_witness :
    (addToCart wCartStore wCartReq).2 =
      .created (newCartItem wCartReq wProduct) ∧
    (newCartItem wCartReq wProduct).productName = wProduct.name ∧
    (newCartItem wCartReq wProduct).price = wProduct.price ∧
    (newCartItem wCartReq wProduct).image = wProduct.mainImage :=
  (cart_snapshot_frame wCartStore wCartReq wProduct rfl rfl).1

/-! ### Wishlist set semantics -/

theorem wishlistSetLike_append (l : List WishlistItem) (x : WishlistItem)
    (hinv : WishlistSetLike l)
    (h : l.find? (wishlistMatch x.userId x.productId) = none) :
    WishlistSetLike (l ++ [x]) := by
  rw [WishlistSetLike, List.pairwise_append]
  refine ⟨hinv, by simp, ?_⟩
  intro a ha b hb
  have hb' : b = x := by simpa using hb
  subst hb'
  have hx := List.find?_eq_none.mp h a ha
  simpa [wishlistMatch] using hx

/-- C9 counterexample: the pair `(u, 5)` already has a wishlist entry, yet
the user endpoint rejects the add with the 404 product-not-found
response — the product lookup fires first — not with the duplicate 400. -/
theorem wishlist_duplicate_not_400_cex :
    (∃ w ∈ cexWishStore.wishlist, w.userId = "u" ∧ w.productId = 5) ∧
    (addWishlistUser cexWishStore "u" 5).2 = .productNotFound ∧
    WishlistResp.productNotFound ≠ WishlistResp.duplicate := by
  refine ⟨⟨{ userId := "u", productId := 5, productName := "n",
             price := 1, image := "img" }, ?_, rfl, rfl⟩, rfl, by simp⟩
  simp [cexWishStore]

/-- C9 (amended): add-to-wishlist rejects an already-present
`(userId, productId)` pair without change — with HTTP 400, except on the
user endpoint when the product lookup fails first, which answers 404
(still without change) — and both endpoints preserve the
at-most-one-entry-per-pair invariant. -/
theorem wishlist_set_semantics (st : Store) (userId : String) (pid : ℕ)
    (n : String) (pr : ℚ) (im : String) :
    (∀ w, st.wishlist.find? (wishlistMatch userId pid) = some w →
      addWishlistGuest st userId pid n pr im = (st, .duplicate) ∧
      (∀ product,
        st.products.find? (fun p => decide (p.id = pid)) = some product →
        addWishlistUser st userId pid = (st, .duplicate))) ∧
    (st.products.find? (fun p => decide (p.id = pid)) = none →
      addWishlistUser st userId pid = (st, .productNotFound)) ∧
    (WishlistSetLike st.wishlist →
      WishlistSetLike (addWishlistGuest st userId pid n pr im).1.wishlist ∧
      WishlistSetLike (addWishlistUser st userId pid).1.wishlist) := by
  refine ⟨?_, ?_, ?_⟩
  · intro w hw
    constructor
    · simp [addWishlistGuest, hw]
    · intro product hpd
      simp [addWishlistUser, hpd, hw]
  · intro hpd
    simp [addWishlistUser, hpd]
  · intro hinv
    constructor
    · cases hw : st.wishlist.find? (wishlistMatch userId pid) with
      | some w => simpa [addWishlistGuest, hw] using hinv
      | none =>
          have := wishlistSetLike_append st.wishlist
            { userId := userId, productId := pid, productName := n,
              price := pr, image := im } hinv hw
          simpa [addWishlistGuest, hw] using this
    · cases hpd : st.products.find? (fun p => decide (p.id = pid)) with
      | none => simpa [addWishlistUser, hpd] using hinv
      | some product =>
          cases hw : st.wishlist.find? (wishlistMatch userId pid) with
          | some w => simpa [addWishlistUser, hpd, hw] using hinv
          | none =>
              have := wishlistSetLike_append st.wishlist
                { userId := userId, productId := pid,
                  productName := product.name, price := product.price,
                  image := product.mainImage } hinv hw
              simpa [addWishlistUser, hpd, hw] using this

/-- C9 witness: re-adding the pair `(u, 5)` through the guest endpoint is
rejected with the duplicate 400 and leaves the store unchanged. -/
theorem wishlist_set_semantics_witness :
    cexWishStore.wishlist.find? (wishlistMatch "u" 5) =
      some { userId := "u", productId := 5, productName := "n",
             price := 1, image := "img" } ∧
    addWishlistGuest cexWishStore "u" 5 "x" 2 "y" =
      (cexWishStore, .duplicate) :=
  ⟨rfl, ((wishlist_set_semantics cexWishStore "u" 5 "x" 2 "y").1 _ rfl).1⟩

/-! ### Category soft delete -/

/-- C10: deleting a category that still has an active product answers 400
and changes nothing; otherwise (category ids being unique per the
schema's unique index) the delete is soft — the document stays with
`isActive` false — and the category disappears from GET `/api/categories`
and GET `/api/categories/:id`. -/
theorem deleteCategory_soft_delete (st : Store) (cid : ℕ)
    (hids : st.categories.Pairwise (fun a b => a.id ≠ b.id)) :
    (0 < st.products.countP
        (fun p => decide (p.categoryId = cid ∧ p.isActive = true)) →
      deleteCategory st cid = (st, .blocked (st.products.countP
        (fun p => decide (p.categoryId = cid ∧ p.isActive = true))))) ∧
    (∀ c : Category,
      st.products.countP
        (fun p => decide (p.categoryId = cid ∧ p.isActive = true)) = 0 →
      st.categories.find? (fun c2 => decide (c2.id = cid)) = some c →
      (deleteCategory st cid).2 = .deleted ∧
      (deleteCategory st cid).1.categories.length =
        st.categories.length ∧
      { c with isActive := false } ∈ (deleteCategory st cid).1.categories ∧
      getCategory (deleteCategory st cid).1 cid = none ∧
      ∀ c2 ∈ getCategories (deleteCategory st cid).1, c2.id ≠ cid) := by
  constructor
  · intro h
    simp only [deleteCategory]
    rw [if_pos h]
  · intro c hcnt hfound
    obtain ⟨l1, l2, hl, h1, hx, hu⟩ := find?_some_updateFirst
      (fun c2 : Category => decide (c2.id = cid))
      (fun c2 : Category => { c2 with isActive := false }) hfound
    have hcid : c.id = cid := by simpa using hx
    have hl1 : ∀ y ∈ l1, y.id ≠ cid := by
      intro y hy
      simpa using h1 y hy
    rw [hl] at hids
    have hpa := List.pairwise_append.mp hids
    have hc2l2 : ∀ y ∈ l2, y.id ≠ cid := by
      intro y hy
      have hne := (List.pairwise_cons.mp hpa.2.1).1 y hy
      rw [hcid] at hne
      exact hne.symm
    have hstate : deleteCategory st cid =
        ({ st with
            categories := updateFirst (fun c2 => decide (c2.id = cid))
              (fun c2 => { c2 with isActive := false }) st.categories },
          DeleteCategoryResp.deleted) := by
      have hnot : ¬ 0 < st.products.countP
          (fun p => decide (p.categoryId = cid ∧ p.isActive = true)) := by
        rw [hcnt]
        exact lt_irrefl 0
      simp only [deleteCategory]
      rw [if_neg hnot, hfound]
    refine ⟨by rw [hstate], ?_, ?_, ?_, ?_⟩
    · rw [hstate]
      exact updateFirst_length _ _ _
    · rw [hstate]
      simp [hu]
    · rw [hstate]
      simp only [getCategory, hu]
      rw [List.find?_eq_none]
      intro y hy
      rcases List.mem_append.mp hy with hy1 | hy2
      · simp [hl1 y hy1]
      · rcases List.mem_cons.mp hy2 with rfl | hy3
        · simp
        · simp [hc2l2 y hy3]
    · intro c2 hc2
      rw [hstate] at hc2
      simp only [getCategories, hu] at hc2
      rw [List.mem_filter] at hc2
      rcases List.mem_append.mp hc2.1 with hy1 | hy2
      · exact hl1 c2 hy1
      · rcases List.mem_cons.mp hy2 with heq | hy3
        · rw [heq] at hc2
          exact absurd hc2.2 (by simp)
        · exact hc2l2 c2 hy3

/-- C10 witness: deleting category 1 (no products) keeps the document with
`isActive` false and hides it from the category reads. -/
theorem deleteCategory_soft_delete_witness :
    (deleteCategory wCatStore 1).2 = .deleted ∧
    { wCategory with isActive := false } ∈
      (deleteCategory wCatStore 1).1.categories ∧
    getCategory (deleteCategory wCatStore 1).1 1 = none := by
  have h := (deleteCategory_soft_delete wCatStore 1
    (by simp [wCatStore])).2 wCategory rfl rfl
  exact ⟨h.1, h.2.2.1, h.2.2.2.1⟩

end MedB
